import Mathlib

/-!
Verification of the Study Timer backend (src/main.py).

The service is embedded shallowly: datetimes become whole seconds since the
epoch (`Instant := Nat`), the ambient clock (`datetime.now()`) becomes an
explicit `now : Instant` parameter, the fixed four-entry achievement
dictionary becomes a structure with one field per key, and the process-wide
mutable globals (`active_timer`, `study_sessions`, `user_stats`) become an
`AppState` threaded through the handlers. The `stop` handler's
`HTTPException` becomes an `Except` error value.
-/

/-- An instant: whole seconds since the epoch (the injected clock value). -/
abbrev Instant := Nat

/-- Number of seconds in one calendar day. -/
def secondsPerDay : Nat := 86400

/-- Calendar date of an instant, as a day index (Python `datetime.date()`,
used only through date subtraction). -/
def dateOf (t : Instant) : Nat := t / secondsPerDay

/-- Model of `class Timer(BaseModel)`: configured duration in minutes (a Python
`int`, so modelled as `Int`), optional start instant, running flag. -/
structure Timer where
  duration : Int
  start_time : Option Instant
  is_running : Bool
deriving Repr, DecidableEq

/-- Model of `class StudySession(BaseModel)`. -/
structure StudySession where
  start_time : Instant
  end_time : Option Instant
  duration : Int
  completed : Bool
deriving Repr, DecidableEq

/-- Model of `class Achievement(BaseModel)`. -/
structure Achievement where
  id : String
  name : String
  description : String
  icon : String
  unlocked : Bool
  unlocked_date : Option Instant
deriving Repr, DecidableEq

/-- The fixed four-key achievement dictionary, one field per key. -/
structure Achievements where
  first_session : Achievement
  three_day_streak : Achievement
  week_streak : Achievement
  study_master : Achievement
deriving Repr, DecidableEq

/-- Model of `class UserStats(BaseModel)`. -/
structure UserStats where
  total_study_time : Int
  current_streak : Int
  longest_streak : Int
  last_study_date : Option Instant
  achievements : Achievements
deriving Repr, DecidableEq

/-- The process-wide mutable globals of the service. -/
structure AppState where
  active_timer : Timer
  study_sessions : List StudySession
  user_stats : UserStats
deriving Repr, DecidableEq

/-- The `ACHIEVEMENTS` catalog literal: all four badges locked. -/
def ACHIEVEMENTS : Achievements :=
  { first_session :=
      { id := "first_session", name := "First Steps",
        description := "Complete your first study session", icon := "🌱",
        unlocked := false, unlocked_date := none },
    three_day_streak :=
      { id := "three_day_streak", name := "Consistent Learner",
        description := "Maintain a 3-day study streak", icon := "🔥",
        unlocked := false, unlocked_date := none },
    week_streak :=
      { id := "week_streak", name := "Weekly Warrior",
        description := "Maintain a 7-day study streak", icon := "⚔️",
        unlocked := false, unlocked_date := none },
    study_master :=
      { id := "study_master", name := "Study Master",
        description := "Complete 10 hours of studying", icon := "👑",
        unlocked := false, unlocked_date := none } }

/-- Module-load state: `active_timer = Timer(duration=25)`,
`study_sessions = []`, `user_stats = UserStats()` with the catalog copied
into `user_stats.achievements`. -/
def initState : AppState :=
  { active_timer := { duration := 25, start_time := none, is_running := false },
    study_sessions := [],
    user_stats :=
      { total_study_time := 0, current_streak := 0, longest_streak := 0,
        last_study_date := none, achievements := ACHIEVEMENTS } }

/-- Function `update_streak()`: update the streak from the calendar-day difference
between today and the recorded last study date, then (outside the
already-studied-today early return) bump `longest_streak` and stamp
`last_study_date` with the full current instant. -/
def update_streak (now : Instant) (s : UserStats) : UserStats :=
  let today := dateOf now
  match s.last_study_date with
  | none =>
      let s1 := { s with current_streak := 1 }
      { s1 with
          longest_streak := max s1.current_streak s1.longest_streak,
          last_study_date := some now }
  | some last =>
      let days_diff : Int := (today : Int) - (dateOf last : Int)
      if days_diff = 0 then
        s
      else
        let s1 :=
          if days_diff = 1 then
            { s with current_streak := s.current_streak + 1 }
          else
            { s with current_streak := 1 }
        { s1 with
            longest_streak := max s1.current_streak s1.longest_streak,
            last_study_date := some now }

/-- Flip `achievements["first_session"]` to unlocked, stamped `now`. -/
def unlock_first_session (now : Instant) (s : UserStats) : UserStats :=
  { s with achievements :=
      { s.achievements with first_session :=
          { s.achievements.first_session with
              unlocked := true, unlocked_date := some now } } }

/-- Flip `achievements["three_day_streak"]` to unlocked, stamped `now`. -/
def unlock_three_day_streak (now : Instant) (s : UserStats) : UserStats :=
  { s with achievements :=
      { s.achievements with three_day_streak :=
          { s.achievements.three_day_streak with
              unlocked := true, unlocked_date := some now } } }

/-- Flip `achievements["week_streak"]` to unlocked, stamped `now`. -/
def unlock_week_streak (now : Instant) (s : UserStats) : UserStats :=
  { s with achievements :=
      { s.achievements with week_streak :=
          { s.achievements.week_streak with
              unlocked := true, unlocked_date := some now } } }

/-- Flip `achievements["study_master"]` to unlocked, stamped `now`. -/
def unlock_study_master (now : Instant) (s : UserStats) : UserStats :=
  { s with achievements :=
      { s.achievements with study_master :=
          { s.achievements.study_master with
              unlocked := true, unlocked_date := some now } } }

/-- Function `check_achievements()`: run the four unlock checks in source order
(first_session by exact session count 1, three_day_streak by streak >= 3,
week_streak by streak >= 7, study_master by streak >= 3 despite its
10-hours description), each skipped when already unlocked; return the
updated stats together with the newly unlocked records in that order. -/
def check_achievements (now : Instant) (sessions : List StudySession)
    (s0 : UserStats) : UserStats × List Achievement :=
  let c1 := sessions.length = 1 ∧ s0.achievements.first_session.unlocked = false
  let s1 := if c1 then unlock_first_session now s0 else s0
  let n1 : List Achievement :=
    if c1 then [(unlock_first_session now s0).achievements.first_session] else []
  let c2 := 3 ≤ s1.current_streak ∧ s1.achievements.three_day_streak.unlocked = false
  let s2 := if c2 then unlock_three_day_streak now s1 else s1
  let n2 : List Achievement :=
    if c2 then [(unlock_three_day_streak now s1).achievements.three_day_streak] else []
  let c3 := 7 ≤ s2.current_streak ∧ s2.achievements.week_streak.unlocked = false
  let s3 := if c3 then unlock_week_streak now s2 else s2
  let n3 : List Achievement :=
    if c3 then [(unlock_week_streak now s2).achievements.week_streak] else []
  let c4 := 3 ≤ s3.current_streak ∧ s3.achievements.study_master.unlocked = false
  let s4 := if c4 then unlock_study_master now s3 else s3
  let n4 : List Achievement :=
    if c4 then [(unlock_study_master now s3).achievements.study_master] else []
  (s4, n1 ++ n2 ++ n3 ++ n4)

/-- Handler of `POST /timer/start`: replace the active timer wholesale. -/
def start_timer (now : Instant) (duration : Int) (st : AppState) :
    AppState × Timer :=
  let t : Timer := { duration := duration, start_time := some now, is_running := true }
  ({ st with active_timer := t }, t)

/-- Pad a number below 100 to two digits, as in Python's timedelta text. -/
def pad2 (n : Nat) : String :=
  if n < 10 then "0" ++ toString n else toString n

/-- Python `str(timedelta(seconds=k))` for a nonnegative whole number of
seconds: an optional day count followed by `H:MM:SS`. -/
def formatTimedelta (k : Nat) : String :=
  let days := k / secondsPerDay
  let rem := k % secondsPerDay
  let hms :=
    toString (rem / 3600) ++ ":" ++ pad2 (rem % 3600 / 60) ++ ":" ++ pad2 (rem % 60)
  if days = 0 then hms
  else if days = 1 then "1 day, " ++ hms
  else toString days ++ " days, " ++ hms

/-- The three response shapes of `GET /timer/status`. -/
inductive TimerStatusResp where
  | stopped (remaining : Nat)
  | completed (remaining : Nat)
  | running (remaining_seconds : Nat) (remaining_formatted : String)
deriving Repr, DecidableEq

/-- Handler of `GET /timer/status`: report the remaining time of the active timer;
when the countdown has expired, flip `is_running` to false as a side
effect of the read. A running timer always has a start time (set by
`start_timer`), so the `getD` default is never reached on those states. -/
def get_timer_status (now : Instant) (st : AppState) :
    AppState × TimerStatusResp :=
  if st.active_timer.is_running = false then
    (st, .stopped 0)
  else
    let elapsed : Int := (now : Int) - (st.active_timer.start_time.getD 0 : Int)
    let remaining : Int := st.active_timer.duration * 60 - elapsed
    if remaining ≤ 0 then
      ({ st with active_timer := { st.active_timer with is_running := false } },
       .completed 0)
    else
      (st, .running remaining.toNat (formatTimedelta remaining.toNat))

/-- The error raised by `stop` (`HTTPException(status_code=400, ...)`). -/
structure HTTPError where
  status_code : Nat
  detail : String
deriving Repr, DecidableEq

/-- The success payload of `POST /timer/stop`. -/
structure StopResponse where
  message : String
  session : StudySession
  streak : Int
  new_achievement : List Achievement
deriving Repr, DecidableEq

/-- Handler of `POST /timer/stop`: reject when no timer is running; otherwise stop the
timer, append a completed session stamped with the configured duration,
add that duration to the total, update the streak, and run the
achievement checks against the grown session log. -/
def stop_timer (now : Instant) (st : AppState) :
    Except HTTPError (AppState × StopResponse) :=
  if st.active_timer.is_running = false then
    .error { status_code := 400, detail := "Timer is not running" }
  else
    let session : StudySession :=
      { start_time := st.active_timer.start_time.getD 0,
        end_time := some now,
        duration := st.active_timer.duration,
        completed := true }
    let sessions := st.study_sessions ++ [session]
    let statsTotal :=
      { st.user_stats with
          total_study_time := st.user_stats.total_study_time + session.duration }
    let statsStreak := update_streak now statsTotal
    let checked := check_achievements now sessions statsStreak
    let st' : AppState :=
      { active_timer := { st.active_timer with is_running := false },
        study_sessions := sessions,
        user_stats := checked.1 }
    .ok (st',
      { message := "Timer stopped successfully",
        session := session,
        streak := checked.1.current_streak,
        new_achievement := checked.2 })

/-- One client request against the mutable state (the read-only `GET /`
and `GET /stats` endpoints touch no state and are omitted). -/
inductive Op where
  | start (now : Instant) (duration : Int)
  | timerStatus (now : Instant)
  | stop (now : Instant)
deriving Repr, DecidableEq

/-- State reached after serving one request (a failed `stop` raises before
any mutation, so it leaves the state as it was). -/
def step (op : Op) (st : AppState) : AppState :=
  match op with
  | .start now d => (start_timer now d st).1
  | .timerStatus now => (get_timer_status now st).1
  | .stop now =>
      match stop_timer now st with
      | .ok r => r.1
      | .error _ => st

/-- State reached after serving a sequence of requests. -/
def run (ops : List Op) (st : AppState) : AppState :=
  match ops with
  | [] => st
  | op :: rest => run rest (step op st)

/-- Sum of the recorded durations of a session log. -/
def sessionDurSum (l : List StudySession) : Int :=
  (l.map (fun s => s.duration)).sum

/-- Does the list report a badge with this id as newly unlocked? -/
def containsId (l : List Achievement) (i : String) : Bool :=
  l.any (fun a => a.id == i)

/-- The four stored badge records carry their own dictionary keys as ids
(true of the catalog and preserved by every operation). -/
def WellFormedIds (a : Achievements) : Prop :=
  a.first_session.id = "first_session" ∧
  a.three_day_streak.id = "three_day_streak" ∧
  a.week_streak.id = "week_streak" ∧
  a.study_master.id = "study_master"

/-! ### Helper lemmas about the embedded operations -/

lemma check_achievements_current_streak (now : Instant) (sess : List StudySession)
    (s0 : UserStats) :
    (check_achievements now sess s0).1.current_streak = s0.current_streak := by
  simp only [check_achievements, unlock_first_session, unlock_three_day_streak,
    unlock_week_streak, unlock_study_master]
  split_ifs <;> rfl

lemma check_achievements_longest_streak (now : Instant) (sess : List StudySession)
    (s0 : UserStats) :
    (check_achievements now sess s0).1.longest_streak = s0.longest_streak := by
  simp only [check_achievements, unlock_first_session, unlock_three_day_streak,
    unlock_week_streak, unlock_study_master]
  split_ifs <;> rfl

lemma check_achievements_total (now : Instant) (sess : List StudySession)
    (s0 : UserStats) :
    (check_achievements now sess s0).1.total_study_time = s0.total_study_time := by
  simp only [check_achievements, unlock_first_session, unlock_three_day_streak,
    unlock_week_streak, unlock_study_master]
  split_ifs <;> rfl

lemma check_achievements_study_master_unlocked (now : Instant)
    (sess : List StudySession) (s0 : UserStats) :
    (check_achievements now sess s0).1.achievements.study_master.unlocked =
      (s0.achievements.study_master.unlocked || decide (3 ≤ s0.current_streak)) := by
  simp only [check_achievements, unlock_first_session, unlock_three_day_streak,
    unlock_week_streak, unlock_study_master]
  split_ifs <;> simp_all

lemma check_achievements_first_session_unlocked (now : Instant)
    (sess : List StudySession) (s0 : UserStats) :
    (check_achievements now sess s0).1.achievements.first_session.unlocked =
      (s0.achievements.first_session.unlocked || decide (sess.length = 1)) := by
  simp only [check_achievements, unlock_first_session, unlock_three_day_streak,
    unlock_week_streak, unlock_study_master]
  split_ifs <;> simp_all

lemma check_achievements_three_day_unlocked (now : Instant)
    (sess : List StudySession) (s0 : UserStats) :
    (check_achievements now sess s0).1.achievements.three_day_streak.unlocked =
      (s0.achievements.three_day_streak.unlocked || decide (3 ≤ s0.current_streak)) := by
  simp only [check_achievements, unlock_first_session, unlock_three_day_streak,
    unlock_week_streak, unlock_study_master]
  split_ifs <;> simp_all

lemma check_achievements_week_unlocked (now : Instant)
    (sess : List StudySession) (s0 : UserStats) :
    (check_achievements now sess s0).1.achievements.week_streak.unlocked =
      (s0.achievements.week_streak.unlocked || decide (7 ≤ s0.current_streak)) := by
  simp only [check_achievements, unlock_first_session, unlock_three_day_streak,
    unlock_week_streak, unlock_study_master]
  split_ifs <;> simp_all

lemma check_achievements_newly_first_session (now : Instant)
    (sess : List StudySession) (s0 : UserStats)
    (h : WellFormedIds s0.achievements) :
    containsId (check_achievements now sess s0).2 "first_session" =
      decide (sess.length = 1 ∧
        s0.achievements.first_session.unlocked = false) := by
  obtain ⟨h1, h2, h3, h4⟩ := h
  simp only [check_achievements, unlock_first_session, unlock_three_day_streak,
    unlock_week_streak, unlock_study_master, containsId]
  split_ifs <;> simp_all

lemma check_achievements_newly_three_day (now : Instant)
    (sess : List StudySession) (s0 : UserStats)
    (h : WellFormedIds s0.achievements) :
    containsId (check_achievements now sess s0).2 "three_day_streak" =
      decide (3 ≤ s0.current_streak ∧
        s0.achievements.three_day_streak.unlocked = false) := by
  obtain ⟨h1, h2, h3, h4⟩ := h
  simp only [check_achievements, unlock_first_session, unlock_three_day_streak,
    unlock_week_streak, unlock_study_master, containsId]
  split_ifs <;> simp_all

lemma check_achievements_newly_week (now : Instant)
    (sess : List StudySession) (s0 : UserStats)
    (h : WellFormedIds s0.achievements) :
    containsId (check_achievements now sess s0).2 "week_streak" =
      decide (7 ≤ s0.current_streak ∧
        s0.achievements.week_streak.unlocked = false) := by
  obtain ⟨h1, h2, h3, h4⟩ := h
  simp only [check_achievements, unlock_first_session, unlock_three_day_streak,
    unlock_week_streak, unlock_study_master, containsId]
  split_ifs <;> simp_all

lemma check_achievements_newly_study_master (now : Instant)
    (sess : List StudySession) (s0 : UserStats)
    (h : WellFormedIds s0.achievements) :
    containsId (check_achievements now sess s0).2 "study_master" =
      decide (3 ≤ s0.current_streak ∧
        s0.achievements.study_master.unlocked = false) := by
  obtain ⟨h1, h2, h3, h4⟩ := h
  simp only [check_achievements, unlock_first_session, unlock_three_day_streak,
    unlock_week_streak, unlock_study_master, containsId]
  split_ifs <;> simp_all

lemma update_streak_none (now : Instant) (s : UserStats)
    (hl : s.last_study_date = none) :
    update_streak now s =
      { s with current_streak := 1,
               longest_streak := max 1 s.longest_streak,
               last_study_date := some now } := by
  unfold update_streak
  rw [hl]

lemma update_streak_noop (now : Instant) (s : UserStats) (last : Instant)
    (hl : s.last_study_date = some last)
    (h : (dateOf now : Int) - (dateOf last : Int) = 0) :
    update_streak now s = s := by
  unfold update_streak
  rw [hl]
  dsimp only
  rw [if_pos h]

lemma update_streak_incr (now : Instant) (s : UserStats) (last : Instant)
    (hl : s.last_study_date = some last)
    (h : (dateOf now : Int) - (dateOf last : Int) = 1) :
    update_streak now s =
      { s with current_streak := s.current_streak + 1,
               longest_streak := max (s.current_streak + 1) s.longest_streak,
               last_study_date := some now } := by
  unfold update_streak
  rw [hl]
  dsimp only
  rw [if_neg (by omega), if_pos h]

lemma update_streak_reset (now : Instant) (s : UserStats) (last : Instant)
    (hl : s.last_study_date = some last)
    (h0 : (dateOf now : Int) - (dateOf last : Int) ≠ 0)
    (h1 : (dateOf now : Int) - (dateOf last : Int) ≠ 1) :
    update_streak now s =
      { s with current_streak := 1,
               longest_streak := max 1 s.longest_streak,
               last_study_date := some now } := by
  unfold update_streak
  rw [hl]
  dsimp only
  rw [if_neg h0, if_neg h1]

lemma update_streak_achievements (now : Instant) (s : UserStats) :
    (update_streak now s).achievements = s.achievements := by
  unfold update_streak
  cases s.last_study_date with
  | none => rfl
  | some last =>
      dsimp only
      split_ifs <;> rfl

lemma update_streak_total (now : Instant) (s : UserStats) :
    (update_streak now s).total_study_time = s.total_study_time := by
  unfold update_streak
  cases s.last_study_date with
  | none => rfl
  | some last =>
      dsimp only
      split_ifs <;> rfl

lemma update_streak_le (now : Instant) (s : UserStats)
    (h : s.current_streak ≤ s.longest_streak) :
    (update_streak now s).current_streak ≤ (update_streak now s).longest_streak := by
  unfold update_streak
  cases s.last_study_date with
  | none => exact le_max_left _ _
  | some last =>
      dsimp only
      split_ifs
      · exact h
      · exact le_max_left _ _
      · exact le_max_left _ _

lemma get_timer_status_user_stats (now : Instant) (st : AppState) :
    (get_timer_status now st).1.user_stats = st.user_stats := by
  simp only [get_timer_status]
  split_ifs <;> rfl

lemma get_timer_status_sessions (now : Instant) (st : AppState) :
    (get_timer_status now st).1.study_sessions = st.study_sessions := by
  simp only [get_timer_status]
  split_ifs <;> rfl

lemma get_timer_status_completed_not_running (now : Instant) (st st' : AppState)
    (r : Nat) (h : get_timer_status now st = (st', .completed r)) :
    st'.active_timer.is_running = false := by
  simp only [get_timer_status] at h
  rw [Prod.ext_iff] at h
  split_ifs at h
  · exact absurd h.2 (by simp)
  · have h1 := h.1
    dsimp only at h1
    rw [← h1]
  · exact absurd h.2 (by simp)

lemma lem_stop_not_running (now : Instant) (st : AppState)
    (h : st.active_timer.is_running = false) :
    stop_timer now st =
      .error { status_code := 400, detail := "Timer is not running" } ∧
    step (.stop now) st = st := by
  constructor
  · unfold stop_timer
    simp [h]
  · unfold step stop_timer
    simp [h]

lemma stop_timer_ok_inv (now : Instant) (st st' : AppState) (resp : StopResponse)
    (h : stop_timer now st = Except.ok (st', resp)) :
    st.active_timer.is_running = true ∧
    resp.session = { start_time := st.active_timer.start_time.getD 0,
                     end_time := some now,
                     duration := st.active_timer.duration,
                     completed := true } ∧
    st'.study_sessions = st.study_sessions ++ [resp.session] ∧
    st'.active_timer = { st.active_timer with is_running := false } ∧
    st'.user_stats = (check_achievements now (st.study_sessions ++ [resp.session])
        (update_streak now { st.user_stats with
            total_study_time :=
              st.user_stats.total_study_time + st.active_timer.duration })).1 ∧
    resp.new_achievement = (check_achievements now (st.study_sessions ++ [resp.session])
        (update_streak now { st.user_stats with
            total_study_time :=
              st.user_stats.total_study_time + st.active_timer.duration })).2 ∧
    resp.streak = st'.user_stats.current_streak ∧
    resp.message = "Timer stopped successfully" := by
  unfold stop_timer at h
  split_ifs at h with hr
  have hrun : st.active_timer.is_running = true := by
    simpa using hr
  rw [Except.ok.injEq, Prod.ext_iff] at h
  obtain ⟨h1, h2⟩ := h
  dsimp only at h1 h2
  subst h1
  subst h2
  exact ⟨hrun, rfl, rfl, rfl, rfl, rfl, rfl, rfl⟩

lemma run_preserves (P : AppState → Prop)
    (hstep : ∀ op st, P st → P (step op st)) :
    ∀ ops st, P st → P (run ops st) := by
  intro ops
  induction ops with
  | nil => exact fun st h => h
  | cons op rest ih => exact fun st h => ih _ (hstep op st h)

lemma step_preserves_streakLe (op : Op) (st : AppState)
    (h : st.user_stats.current_streak ≤ st.user_stats.longest_streak) :
    (step op st).user_stats.current_streak ≤
      (step op st).user_stats.longest_streak := by
  cases op with
  | start now d => exact h
  | timerStatus now =>
      simp only [step, get_timer_status_user_stats]
      exact h
  | stop now =>
      simp only [step]
      rcases hst : stop_timer now st with e | ⟨st', resp⟩
      · exact h
      · have hinv := stop_timer_ok_inv now st st' resp hst
        simp only [hst]
        rw [hinv.2.2.2.2.1, check_achievements_current_streak,
          check_achievements_longest_streak]
        exact update_streak_le _ _ h

lemma step_preserves_td_sm (op : Op) (st : AppState)
    (h : st.user_stats.achievements.three_day_streak.unlocked = true →
         st.user_stats.achievements.study_master.unlocked = true) :
    (step op st).user_stats.achievements.three_day_streak.unlocked = true →
    (step op st).user_stats.achievements.study_master.unlocked = true := by
  cases op with
  | start now d => exact h
  | timerStatus now =>
      simp only [step, get_timer_status_user_stats]
      exact h
  | stop now =>
      simp only [step]
      rcases hst : stop_timer now st with e | ⟨st', resp⟩
      · exact h
      · have hinv := stop_timer_ok_inv now st st' resp hst
        simp only [hst]
        rw [hinv.2.2.2.2.1, check_achievements_three_day_unlocked,
          check_achievements_study_master_unlocked, update_streak_achievements]
        simp only [Bool.or_eq_true]
        dsimp only
        tauto

lemma step_preserves_totalInv (op : Op) (st : AppState)
    (h : st.user_stats.total_study_time = sessionDurSum st.study_sessions) :
    (step op st).user_stats.total_study_time =
      sessionDurSum (step op st).study_sessions := by
  cases op with
  | start now d => exact h
  | timerStatus now =>
      simp only [step, get_timer_status_user_stats, get_timer_status_sessions]
      exact h
  | stop now =>
      simp only [step]
      rcases hst : stop_timer now st with e | ⟨st', resp⟩
      · exact h
      · have hinv := stop_timer_ok_inv now st st' resp hst
        simp only [hst]
        rw [hinv.2.2.2.2.1, check_achievements_total, update_streak_total,
          hinv.2.2.1, hinv.2.1]
        simp [sessionDurSum, h]

/-! ### Concrete sample states used by the witnesses -/

/-- A stats record on day 1 with a 3-day streak and the locked catalog. -/
def sampleStats : UserStats :=
  { total_study_time := 50, current_streak := 3, longest_streak := 4,
    last_study_date := some (secondsPerDay + 30), achievements := ACHIEVEMENTS }

/-- The initial state with a 25-minute timer started at instant 100. -/
def runningState : AppState :=
  { initState with
      active_timer := { duration := 25, start_time := some 100, is_running := true } }

/-! ### The claims -/

/-- C1: for every `StreakTracker` state, `update` with today one calendar
day after `last_study_date` increments `current_streak`; with a calendar
difference of two or more days, or a negative difference, it resets
`current_streak` to 1; with the same calendar date it is a no-op leaving
`current_streak` and `last_study_date` unchanged; and with
`last_study_date` unset it sets `current_streak` to 1. -/
theorem streak_update_law (now : Instant) (s : UserStats) :
    (s.last_study_date = none → (update_streak now s).current_streak = 1) ∧
    (∀ last, s.last_study_date = some last →
      ((dateOf now : Int) - (dateOf last : Int) = 1 →
         (update_streak now s).current_streak = s.current_streak + 1) ∧
      (2 ≤ (dateOf now : Int) - (dateOf last : Int) ∨
         (dateOf now : Int) - (dateOf last : Int) < 0 →
         (update_streak now s).current_streak = 1) ∧
      ((dateOf now : Int) - (dateOf last : Int) = 0 →
         update_streak now s = s)) := by
  refine ⟨fun hl => ?_, fun last hl => ⟨fun h1 => ?_, fun h2 => ?_, fun h0 => ?_⟩⟩
  · rw [update_streak_none now s hl]
  · rw [update_streak_incr now s last hl h1]
  · rw [update_streak_reset now s last hl (by omega) (by omega)]
  · exact update_streak_noop now s last hl h0

theorem streak_update_law_witness :
    (update_streak (2 * secondsPerDay + 60) sampleStats).current_streak =
      sampleStats.current_streak + 1 :=
  ((streak_update_law (2 * secondsPerDay + 60) sampleStats).2
    (secondsPerDay + 30) rfl).1 (by decide)

/-- C2: `study_master` is newly unlocked by `check_achievements` exactly
when `current_streak >= 3` and it is not already unlocked; the predicate
does not depend on `total_study_time` at all, despite the badge's
"10 hours of studying" description. -/
theorem study_master_unlock_rule (now : Instant) (sess : List StudySession)
    (s : UserStats) (t : Int) (h : WellFormedIds s.achievements) :
    (containsId (check_achievements now sess s).2 "study_master" = true ↔
       3 ≤ s.current_streak ∧ s.achievements.study_master.unlocked = false) ∧
    ((check_achievements now sess s).1.achievements.study_master.unlocked = true ↔
       3 ≤ s.current_streak ∨ s.achievements.study_master.unlocked = true) ∧
    containsId (check_achievements now sess
        { s with total_study_time := t }).2 "study_master" =
      containsId (check_achievements now sess s).2 "study_master" := by
  refine ⟨?_, ?_, ?_⟩
  · rw [check_achievements_newly_study_master now sess s h]
    simp
  · rw [check_achievements_study_master_unlocked]
    simp only [Bool.or_eq_true, decide_eq_true_eq]
    tauto
  · rw [check_achievements_newly_study_master now sess
        { s with total_study_time := t } h,
      check_achievements_newly_study_master now sess s h]

theorem study_master_unlock_rule_witness :
    containsId (check_achievements 10 [] sampleStats).2 "study_master" = true :=
  (study_master_unlock_rule 10 [] sampleStats 0 ⟨rfl, rfl, rfl, rfl⟩).1.mpr (by decide)

/-- C3: `stop` on a non-running timer fails with HTTP 400 and detail
"Timer is not running", and mutates nothing: the whole state, and in
particular the session log length, is unchanged by the failed call. -/
theorem stop_not_running_spec (now : Instant) (st : AppState)
    (h : st.active_timer.is_running = false) :
    stop_timer now st =
      Except.error { status_code := 400, detail := "Timer is not running" } ∧
    step (.stop now) st = st ∧
    (step (.stop now) st).study_sessions.length = st.study_sessions.length := by
  obtain ⟨h1, h2⟩ := lem_stop_not_running now st h
  exact ⟨h1, h2, by rw [h2]⟩

theorem stop_not_running_spec_witness :
    stop_timer 7 initState =
      Except.error { status_code := 400, detail := "Timer is not running" } :=
  (stop_not_running_spec 7 initState rfl).1

/-- C4: a successful `stop` returns a session with `completed = true`,
`end_time = now`, and `duration` equal to the timer's configured duration
(not elapsed time); the session is appended to the log and
`total_study_time` grows by exactly the configured duration, so it never
decreases (durations being nonnegative) and on every reachable state it
equals the sum of the recorded sessions' configured durations. -/
theorem stop_success_spec (now : Instant) (st st' : AppState)
    (resp : StopResponse)
    (hok : stop_timer now st = Except.ok (st', resp)) :
    resp.session.completed = true ∧
    resp.session.end_time = some now ∧
    resp.session.duration = st.active_timer.duration ∧
    st'.study_sessions = st.study_sessions ++ [resp.session] ∧
    st'.user_stats.total_study_time =
      st.user_stats.total_study_time + st.active_timer.duration ∧
    (0 ≤ st.active_timer.duration →
       st.user_stats.total_study_time ≤ st'.user_stats.total_study_time) ∧
    (∀ ops, (run ops initState).user_stats.total_study_time =
       sessionDurSum (run ops initState).study_sessions) := by
  have hinv := stop_timer_ok_inv now st st' resp hok
  have htot : st'.user_stats.total_study_time =
      st.user_stats.total_study_time + st.active_timer.duration := by
    rw [hinv.2.2.2.2.1, check_achievements_total, update_streak_total]
  refine ⟨by rw [hinv.2.1], by rw [hinv.2.1], by rw [hinv.2.1], hinv.2.2.1, htot,
    fun hd => by rw [htot]; exact le_add_of_nonneg_right hd,
    fun ops => run_preserves _ step_preserves_totalInv ops initState rfl⟩

/-- The state reached by stopping `runningState` at instant 500. -/
def stoppedStateW : AppState :=
  { active_timer := { duration := 25, start_time := some 100, is_running := false },
    study_sessions :=
      [{ start_time := 100, end_time := some 500, duration := 25, completed := true }],
    user_stats :=
      { total_study_time := 25, current_streak := 1, longest_streak := 1,
        last_study_date := some 500,
        achievements :=
          { ACHIEVEMENTS with first_session :=
              { ACHIEVEMENTS.first_session with
                  unlocked := true, unlocked_date := some 500 } } } }

/-- The response returned by stopping `runningState` at instant 500. -/
def stopRespW : StopResponse :=
  { message := "Timer stopped successfully",
    session := { start_time := 100, end_time := some 500, duration := 25, completed := true },
    streak := 1,
    new_achievement :=
      [{ ACHIEVEMENTS.first_session with unlocked := true, unlocked_date := some 500 }] }

theorem stop_success_spec_witness :
    stopRespW.session.completed = true ∧
    stoppedStateW.user_stats.total_study_time =
      runningState.user_stats.total_study_time + runningState.active_timer.duration :=
  let h := stop_success_spec 500 runningState stoppedStateW stopRespW rfl
  ⟨h.1, h.2.2.2.2.1⟩

/-- C5: achievement unlocking is permanent: for each of the four ids, if
it is already unlocked then `check_achievements` keeps its flag true and
does not report it again in the newly-unlocked list, whatever the current
streak and session count are. -/
theorem achievement_permanence (now : Instant) (sess : List StudySession)
    (s : UserStats) (h : WellFormedIds s.achievements) :
    (s.achievements.first_session.unlocked = true →
       (check_achievements now sess s).1.achievements.first_session.unlocked = true ∧
       containsId (check_achievements now sess s).2 "first_session" = false) ∧
    (s.achievements.three_day_streak.unlocked = true →
       (check_achievements now sess s).1.achievements.three_day_streak.unlocked = true ∧
       containsId (check_achievements now sess s).2 "three_day_streak" = false) ∧
    (s.achievements.week_streak.unlocked = true →
       (check_achievements now sess s).1.achievements.week_streak.unlocked = true ∧
       containsId (check_achievements now sess s).2 "week_streak" = false) ∧
    (s.achievements.study_master.unlocked = true →
       (check_achievements now sess s).1.achievements.study_master.unlocked = true ∧
       containsId (check_achievements now sess s).2 "study_master" = false) := by
  refine ⟨fun hu => ⟨?_, ?_⟩, fun hu => ⟨?_, ?_⟩, fun hu => ⟨?_, ?_⟩, fun hu => ⟨?_, ?_⟩⟩
  · rw [check_achievements_first_session_unlocked]
    simp [hu]
  · rw [check_achievements_newly_first_session now sess s h]
    simp [hu]
  · rw [check_achievements_three_day_unlocked]
    simp [hu]
  · rw [check_achievements_newly_three_day now sess s h]
    simp [hu]
  · rw [check_achievements_week_unlocked]
    simp [hu]
  · rw [check_achievements_newly_week now sess s h]
    simp [hu]
  · rw [check_achievements_study_master_unlocked]
    simp [hu]
  · rw [check_achievements_newly_study_master now sess s h]
    simp [hu]

/-- A stats record whose `first_session` badge is already unlocked. -/
def unlockedStatsW : UserStats :=
  { sampleStats with achievements :=
      { ACHIEVEMENTS with first_session :=
          { ACHIEVEMENTS.first_session with
              unlocked := true, unlocked_date := some 42 } } }

theorem achievement_permanence_witness :
    (check_achievements 5 [] unlockedStatsW).1.achievements.first_session.unlocked = true ∧
    containsId (check_achievements 5 [] unlockedStatsW).2 "first_session" = false :=
  (achievement_permanence 5 [] unlockedStatsW ⟨rfl, rfl, rfl, rfl⟩).1 rfl

/-- C6: `longest_streak >= current_streak` holds in the initial state, is
preserved by every operation, and therefore holds in every reachable
state. -/
theorem longest_ge_current_invariant :
    initState.user_stats.current_streak ≤ initState.user_stats.longest_streak ∧
    (∀ op st, st.user_stats.current_streak ≤ st.user_stats.longest_streak →
       (step op st).user_stats.current_streak ≤
         (step op st).user_stats.longest_streak) ∧
    (∀ ops, (run ops initState).user_stats.current_streak ≤
       (run ops initState).user_stats.longest_streak) :=
  ⟨le_refl _, step_preserves_streakLe,
   fun ops => run_preserves _ step_preserves_streakLe ops initState (le_refl _)⟩

theorem longest_ge_current_invariant_witness :
    (step (Op.stop 5) initState).user_stats.current_streak ≤
      (step (Op.stop 5) initState).user_stats.longest_streak :=
  longest_ge_current_invariant.2.1 (Op.stop 5) initState (by decide)

/-- C7: `first_session` is newly unlocked by `check_achievements` exactly
when the session count is exactly 1 and it is not already unlocked; a
count of 0 or of 2 or more never unlocks it. -/
theorem first_session_exact_rule (now : Instant) (sess : List StudySession)
    (s : UserStats) (h : WellFormedIds s.achievements) :
    (containsId (check_achievements now sess s).2 "first_session" = true ↔
       sess.length = 1 ∧ s.achievements.first_session.unlocked = false) ∧
    ((check_achievements now sess s).1.achievements.first_session.unlocked = true ↔
       sess.length = 1 ∨ s.achievements.first_session.unlocked = true) ∧
    (sess.length ≠ 1 →
       containsId (check_achievements now sess s).2 "first_session" = false ∧
       (check_achievements now sess s).1.achievements.first_session.unlocked =
         s.achievements.first_session.unlocked) := by
  refine ⟨?_, ?_, fun hne => ⟨?_, ?_⟩⟩
  · rw [check_achievements_newly_first_session now sess s h]
    simp
  · rw [check_achievements_first_session_unlocked]
    simp only [Bool.or_eq_true, decide_eq_true_eq]
    tauto
  · rw [check_achievements_newly_first_session now sess s h]
    simp [hne]
  · rw [check_achievements_first_session_unlocked]
    simp [hne]

/-- A completed 25-minute session record. -/
def sessionW : StudySession :=
  { start_time := 100, end_time := some 500, duration := 25, completed := true }

theorem first_session_exact_rule_witness :
    containsId (check_achievements 500 [sessionW] initState.user_stats).2
      "first_session" = true :=
  (first_session_exact_rule 500 [sessionW] initState.user_stats
    ⟨rfl, rfl, rfl, rfl⟩).1.mpr (by decide)

/-- C8: a status read of a running timer whose remaining time is not
positive flips the running flag to false as a side effect and reports
completed with remaining 0; on a non-running timer it reports stopped with
remaining 0 without mutation; with positive remaining time it reports
running with the remaining seconds and their formatted text, without
mutation. -/
theorem timer_status_spec (now : Instant) (st : AppState) :
    (st.active_timer.is_running = false →
       get_timer_status now st = (st, TimerStatusResp.stopped 0)) ∧
    (∀ start, st.active_timer.is_running = true →
       st.active_timer.start_time = some start →
       (st.active_timer.duration * 60 - ((now : Int) - (start : Int)) ≤ 0 →
          (get_timer_status now st).2 = TimerStatusResp.completed 0 ∧
          (get_timer_status now st).1 =
            { st with active_timer :=
                { st.active_timer with is_running := false } }) ∧
       (0 < st.active_timer.duration * 60 - ((now : Int) - (start : Int)) →
          get_timer_status now st =
            (st, TimerStatusResp.running
              (st.active_timer.duration * 60 - ((now : Int) - (start : Int))).toNat
              (formatTimedelta
                (st.active_timer.duration * 60 -
                  ((now : Int) - (start : Int))).toNat)))) := by
  constructor
  · intro h
    unfold get_timer_status
    rw [if_pos h]
  · intro start hrun hstart
    constructor
    · intro hrem
      have heq : get_timer_status now st =
          ({ st with active_timer := { st.active_timer with is_running := false } },
           TimerStatusResp.completed 0) := by
        unfold get_timer_status
        rw [if_neg (by simp [hrun]), hstart]
        simp only [Option.getD_some]
        rw [if_pos hrem]
      rw [heq]
      exact ⟨rfl, rfl⟩
    · intro hrem
      unfold get_timer_status
      rw [if_neg (by simp [hrun]), hstart]
      simp only [Option.getD_some]
      rw [if_neg (by omega)]

theorem timer_status_spec_witness :
    (get_timer_status 1600 runningState).2 = TimerStatusResp.completed 0 ∧
    (get_timer_status 1600 runningState).1.active_timer.is_running = false :=
  let h := ((timer_status_spec 1600 runningState).2 100 rfl rfl).1 (by decide)
  ⟨h.1, by rw [h.2]⟩

/-- C9: in every reachable state, if `three_day_streak` is unlocked then
`study_master` is unlocked too; and whenever `check_achievements` reports
`three_day_streak` as newly unlocked while `study_master` is not yet
unlocked, the same returned list also reports `study_master`. -/
theorem three_day_implies_study_master (now : Instant)
    (sess : List StudySession) (s : UserStats) :
    (∀ ops,
       (run ops initState).user_stats.achievements.three_day_streak.unlocked = true →
       (run ops initState).user_stats.achievements.study_master.unlocked = true) ∧
    (WellFormedIds s.achievements →
       s.achievements.study_master.unlocked = false →
       containsId (check_achievements now sess s).2 "three_day_streak" = true →
       containsId (check_achievements now sess s).2 "study_master" = true) := by
  constructor
  · exact fun ops =>
      run_preserves _ step_preserves_td_sm ops initState (by decide)
  · intro hWF hsm htd
    rw [check_achievements_newly_three_day now sess s hWF] at htd
    rw [check_achievements_newly_study_master now sess s hWF]
    simp only [decide_eq_true_eq] at htd ⊢
    exact ⟨htd.1, hsm⟩

theorem three_day_implies_study_master_witness :
    containsId (check_achievements 9 [] sampleStats).2 "study_master" = true :=
  (three_day_implies_study_master 9 [] sampleStats).2
    ⟨rfl, rfl, rfl, rfl⟩ rfl (by decide)

/-- C10: once a status read has observed expiry (reported completed,
flipping the running flag), a subsequent `stop` with no intervening start
fails with the NotRunning error and leaves the state untouched, so a
timer that expires naturally is never recorded as a session. -/
theorem expired_timer_not_recorded (now now2 : Instant) (st st' : AppState)
    (rem : Nat)
    (h : get_timer_status now st = (st', TimerStatusResp.completed rem)) :
    stop_timer now2 st' =
      Except.error { status_code := 400, detail := "Timer is not running" } ∧
    step (.stop now2) st' = st' :=
  lem_stop_not_running now2 st'
    (get_timer_status_completed_not_running now st st' rem h)

/-- State `runningState` after its timer has been observed expired. -/
def expiredStateW : AppState :=
  { initState with
      active_timer := { duration := 25, start_time := some 100, is_running := false } }

theorem expired_timer_not_recorded_witness :
    stop_timer 2000 expiredStateW =
      Except.error { status_code := 400, detail := "Timer is not running" } :=
  (expired_timer_not_recorded 1600 2000 runningState expiredStateW 0 rfl).1
